import Mathlib

/-!
Shallow embedding of the pure transformation / classification layer of the
`tidesandcurrents` NOAA client (src/src/index.ts): numeric rounding,
unit-symbol resolution, moon-phase bucketing, and the response-shaping
continuations of the facade operations.  JavaScript numbers are modelled as
exact decimal values `m / 10^e` (every value that flows through these code
paths is a short decimal, on which JS float arithmetic is exact); JS
exceptions are modelled with `Except JsError`, distinguishing an explicit
`throw new Error(msg)` from a runtime `TypeError` raised by a property
access on `undefined`.
-/

namespace Tides

/-- The `Units` enum: `IMPERIAL = "english"`, `METRIC = "metric"`. -/
inductive MeasurementSystem where
  | imperial
  | metric
deriving DecidableEq

/-- The `UnitSymbols` record: display symbols for the four quantities. -/
structure UnitSymbols where
  degree : String
  height : String
  speed : String
  pressure : String
deriving DecidableEq

/-- `unitSymbols` (index.ts 60-69): symbols for a measurement system. -/
def unitSymbols (system : MeasurementSystem) : UnitSymbols :=
  let isImperial : Bool := system == MeasurementSystem.imperial
  { degree := if isImperial then "°F" else "°C"
    height := if isImperial then "ft" else "m"
    speed := if isImperial then "kts" else "m/s"
    pressure := "mb" }

/-- The `Symbols` enum of measurement kinds used to index a `UnitSymbols`. -/
inductive Symbols where
  | degree
  | speed
  | height
  | pressure
deriving DecidableEq

/-- The dynamic index `symbol[measurement]` of index.ts 232. -/
def UnitSymbols.get (u : UnitSymbols) : Symbols → String
  | .degree => u.degree
  | .speed => u.speed
  | .height => u.height
  | .pressure => u.pressure

/-- An exact decimal number `m / 10^e`, the model of a JS number on the
decimal values these code paths handle. -/
structure Dec where
  m : Int
  e : Nat
deriving DecidableEq

/-- The rational value of a `Dec`. -/
def Dec.toRat (d : Dec) : ℚ := (d.m : ℚ) / 10 ^ d.e

/-- Strip trailing fractional zeros: `Number()` canonicalisation, so that
`e` is exactly the number of digits after the point in the JS
`toString` rendering of the value. -/
def normAux : Int → Nat → Int × Nat
  | m, 0 => (m, 0)
  | m, e + 1 => if m % 10 = 0 then normAux (m / 10) e else (m, e + 1)

/-- Canonical form of a `Dec` (trailing fractional zeros removed). -/
def normalize (d : Dec) : Dec := ⟨(normAux d.m d.e).1, (normAux d.m d.e).2⟩

/-- JS `Math.round` applied to the fraction `n / d` (`d > 0`): the nearest
integer, ties toward `+∞`, i.e. `⌊n/d + 1/2⌋`, computed on integers as
`⌊(2n + d) / (2d)⌋`. -/
def jsRound (n : Int) (d : Nat) : Int := (2 * n + (d : Int)) / (2 * (d : Int))

/-- The numeric-input path of `round` (index.ts 31-47): identity on
integers and on values with fewer than 3 decimal digits; otherwise
`Math.round(value * 100) / 100`, where `value * 100 = (m * 100) / 10^e`. -/
def roundDec (num : Dec) : Dec :=
  let value := normalize num
  if value.e = 0 then value
  else if value.e < 3 then value
  else normalize ⟨jsRound (value.m * 100) (10 ^ value.e), 2⟩

/-- Numeric value of a decimal digit character. -/
def charDigit (c : Char) : Option Nat :=
  if '0' ≤ c ∧ c ≤ '9' then some (c.toNat - '0'.toNat) else none

/-- Fold a list of digit characters into a natural number, `none` on the
first non-digit. -/
def digitsToNatAux : Nat → List Char → Option Nat
  | acc, [] => some acc
  | acc, c :: cs =>
    match charDigit c with
    | some d => digitsToNatAux (10 * acc + d) cs
    | none => none

/-- Parse the unsigned part of a plain decimal literal. -/
def parseUnsigned (cs : List Char) : Option Dec :=
  match cs.span (fun c => c ≠ '.') with
  | (ip, []) => (digitsToNatAux 0 ip).map fun n => ⟨(n : Int), 0⟩
  | (ip, _ :: fp) => do
    let i ← digitsToNatAux 0 ip
    let f ← digitsToNatAux 0 fp
    pure ⟨(i : Int) * 10 ^ fp.length + (f : Int), fp.length⟩

/-- JS `Number()` on a plain decimal literal (optional sign, digits,
optional point and digits); `none` models `NaN`. -/
def parseDec (s : String) : Option Dec :=
  match s.toList with
  | '-' :: rest => (parseUnsigned rest).map fun d => ⟨-d.m, d.e⟩
  | cs => parseUnsigned cs

/-- `round` (index.ts 31-47) with its `string | number` argument;
`none` models the `NaN` a non-numeric string produces. -/
def round : String ⊕ Dec → Option Dec
  | .inl s => (parseDec s).map roundDec
  | .inr d => some (roundDec d)

/-- Left-pad a digit string with zeros to `n` characters. -/
def padZeros (s : String) (n : Nat) : String :=
  String.mk (List.replicate (n - s.length) '0') ++ s

/-- Decimal rendering of a canonical `Dec`. -/
def decToStringAux (d : Dec) : String :=
  let a := d.m.natAbs
  let sign := if d.m < 0 then "-" else ""
  if d.e = 0 then sign ++ toString a
  else sign ++ toString (a / 10 ^ d.e) ++ "." ++ padZeros (toString (a % 10 ^ d.e)) d.e

/-- JS `toString` / template-literal rendering of a number. -/
def decToString (d : Dec) : String := decToStringAux (normalize d)

/-- Template-literal rendering of a possibly-`NaN` numeric result. -/
def numToString : Option Dec → String
  | some d => decToString d
  | none => "NaN"

/-- A JS dynamic value as it appears in the shaped records: a number or a
string. -/
inductive JsVal where
  | num (d : Dec)
  | str (s : String)
deriving DecidableEq

/-- An upstream observation record `{t, v, type}` (v arrives as a string). -/
structure RawReturnData where
  t : String
  v : String
  type : String
deriving DecidableEq

/-- The shaped `FormattedReturnData` record. -/
structure FormattedReturnData where
  time : String
  rawValue : JsVal
  value : String
  type : Option String
deriving DecidableEq

/-- A JS exception: an explicit `throw new Error(msg)`, or the `TypeError`
raised by reading a property of `undefined`. -/
inductive JsError where
  | error (msg : String)
  | typeError
deriving DecidableEq

/-- The `res.data` body seen by tidePredictions: the `predictions` key may
be absent. -/
structure TideResponseData where
  predictions : Option (List RawReturnData)
deriving DecidableEq

/-- The `res.data` body seen by getCurrentProductValue and currentWind
observations: the `data` key may be absent. -/
structure ProductResponseData where
  data : Option (List RawReturnData)
deriving DecidableEq

/-- The response continuation of `tidePredictions` (index.ts 101-133):
guards on `res.data` and `res.data.predictions`, then maps each raw
prediction to `{time, rawValue: v, value: v + heightSymbol, type}`.
`resData = none` models a missing `res.data`. -/
def tidePredictions (stationId : String) (units : Option MeasurementSystem)
    (resData : Option TideResponseData) :
    Except JsError (List FormattedReturnData) :=
  let unit := units.getD .imperial
  match resData with
  | none => .error (.error "Something went wrong.")
  | some rd =>
    match rd.predictions with
    | none => .error (.error ("Could not get tide predictions for station "
        ++ stationId ++ ". Is the station ID correct?"))
    | some preds =>
      let symbol := unitSymbols unit
      .ok (preds.map fun prediction =>
        { time := prediction.t
          rawValue := .str prediction.v
          value := prediction.v ++ symbol.height
          type := some prediction.type })

/-- The response continuation of `getCurrentProductValue` (index.ts
216-234): guards on `res.data` and `res.data.data`; on an empty `data`
array, `res.data.data[0]` is `undefined` and reading `.v` raises a
`TypeError`; otherwise shapes
`{time, rawValue: round(v) as string, value: round(v) + " " + symbol}`. -/
def getCurrentProductValue (product : String) (stationId : String)
    (measurement : Symbols) (units : Option MeasurementSystem)
    (resData : Option ProductResponseData) :
    Except JsError FormattedReturnData :=
  let unit := units.getD .imperial
  match resData with
  | none => .error (.error "Something went wrong.")
  | some rd =>
    match rd.data with
    | none => .error (.error ("Could not get " ++ product ++ " for station "
        ++ stationId ++ "."))
    | some arr =>
      match arr with
      | [] => .error .typeError
      | returnData :: _ =>
        let symbol := unitSymbols unit
        let rounded := numToString (round (.inl returnData.v))
        .ok { time := returnData.t
              rawValue := .str rounded
              value := rounded ++ " " ++ symbol.get measurement
              type := none }

/-- `currentWaterLevel` (index.ts 245-255): water level with the height
symbol (the MLLW datum only affects the request parameters). -/
def currentWaterLevel (stationId : String) (units : Option MeasurementSystem)
    (resData : Option ProductResponseData) :
    Except JsError FormattedReturnData :=
  getCurrentProductValue "water_level" stationId .height units resData

/-- `currentAirTemp` (index.ts 265-269). -/
def currentAirTemp (stationId : String) (units : Option MeasurementSystem)
    (resData : Option ProductResponseData) :
    Except JsError FormattedReturnData :=
  getCurrentProductValue "air_temperature" stationId .degree units resData

/-- `currentWaterTemp` (index.ts 279-283). -/
def currentWaterTemp (stationId : String) (units : Option MeasurementSystem)
    (resData : Option ProductResponseData) :
    Except JsError FormattedReturnData :=
  getCurrentProductValue "water_temperature" stationId .degree units resData

/-- `currentAirPressure` (index.ts 293-302). -/
def currentAirPressure (stationId : String) (units : Option MeasurementSystem)
    (resData : Option ProductResponseData) :
    Except JsError FormattedReturnData :=
  getCurrentProductValue "air_pressure" stationId .pressure units resData

/-- An upstream wind record `{t, s, g, dr}` (`s`, `g` numeric per the
declared `RawWindData` type). -/
structure RawWindData where
  t : String
  s : Dec
  g : Dec
  dr : String
deriving DecidableEq

/-- The shaped `FormattedWindReturnData` record. -/
structure FormattedWindReturnData where
  time : String
  rawSpeed : Dec
  speed : String
  rawGust : Dec
  gust : String
  direction : String
deriving DecidableEq

/-- The `res.data` body seen by currentWind. -/
structure WindResponseData where
  data : List RawWindData
deriving DecidableEq

/-- The response continuation of `currentWind` (index.ts 320-343): no
shape guard at all; an empty `data` array raises a `TypeError` at
`data[0].t`; speed and gust are template-stringified with a space and the
speed symbol, with no rounding, and `dr` passes through. -/
def currentWind (units : Option MeasurementSystem)
    (resData : WindResponseData) :
    Except JsError FormattedWindReturnData :=
  let unit := units.getD .imperial
  match resData.data with
  | [] => .error .typeError
  | returnData :: _ =>
    let symbol := unitSymbols unit
    .ok { time := returnData.t
          rawSpeed := returnData.s
          speed := decToString returnData.s ++ " " ++ symbol.speed
          rawGust := returnData.g
          gust := decToString returnData.g ++ " " ++ symbol.speed
          direction := returnData.dr }

/-- The illumination-fraction bucket chain of `moonPhase` (index.ts
356-416), taking the `phase` value `suncalc` returns; the trailing pair is
the source's fallback `{emoji: "", phase: ""}`. -/
def classifyMoonPhase (phase : ℚ) : String × String :=
  if 0 ≤ phase ∧ phase ≤ 0.125 then ("🌑", "new")
  else if 0.125 ≤ phase ∧ phase < 0.25 then ("🌒", "waxing crescent")
  else if 0.25 ≤ phase ∧ phase < 0.375 then ("🌓", "quarter crescent")
  else if 0.375 ≤ phase ∧ phase < 0.5 then ("🌔", "waxing gibbous")
  else if 0.5 ≤ phase ∧ phase < 0.625 then ("🌕", "full")
  else if 0.625 ≤ phase ∧ phase < 0.75 then ("🌖", "waning gibbous")
  else if 0.75 ≤ phase ∧ phase < 0.875 then ("🌗", "last quarter")
  else if 0.875 ≤ phase ∧ phase ≤ 1.0 then ("🌘", "waning crescent")
  else ("", "")

/-- Stripping trailing zeros preserves the represented rational value. -/
theorem normAux_toRat (e : Nat) (m : Int) :
    ((normAux m e).1 : ℚ) / 10 ^ (normAux m e).2 = (m : ℚ) / 10 ^ e := by
  induction e generalizing m with
  | zero => simp [normAux]
  | succ e ih =>
    simp only [normAux]
    split_ifs with h
    · rw [ih]
      obtain ⟨k, hk⟩ := Int.dvd_of_emod_eq_zero h
      subst hk
      rw [Int.mul_ediv_cancel_left k (by norm_num)]
      push_cast
      rw [pow_succ]
      field_simp
      ring
    · rfl

/-- After stripping, a remaining fractional part means the mantissa does
not end in the digit zero. -/
theorem normAux_tail (e : Nat) (m : Int) (h : (normAux m e).2 ≠ 0) :
    (normAux m e).1 % 10 ≠ 0 := by
  induction e generalizing m with
  | zero => exact absurd rfl h
  | succ e ih =>
    simp only [normAux] at h ⊢
    split_ifs at h ⊢ with h10
    · exact ih (m / 10) h
    · exact h10

/-- Canonicalisation preserves the value of a `Dec`. -/
theorem normalize_toRat (d : Dec) : (normalize d).toRat = d.toRat := by
  simp only [normalize, Dec.toRat]
  exact normAux_toRat d.e d.m

/-- A `Dec` whose value is a mathematical integer canonicalises to zero
fractional digits (the `Number.isInteger` branch of `round`). -/
theorem normalize_e_eq_zero_of_integral (d : Dec) (k : ℤ)
    (hk : d.toRat = (k : ℚ)) : (normalize d).e = 0 := by
  by_contra h
  have hm : (normalize d).m % 10 ≠ 0 := normAux_tail d.e d.m h
  have hv : ((normalize d).m : ℚ) / 10 ^ (normalize d).e = (k : ℚ) := by
    rw [show ((normalize d).m : ℚ) / 10 ^ (normalize d).e
        = (normalize d).toRat from rfl, normalize_toRat, hk]
  have hZ : (normalize d).m = k * 10 ^ (normalize d).e := by
    field_simp at hv
    exact_mod_cast hv
  apply hm
  rw [hZ]
  apply Int.emod_eq_zero_of_dvd
  exact Dvd.dvd.mul_left (dvd_pow_self 10 h) k

/-- `jsRound` computes `⌊n/d + 1/2⌋`, JS `Math.round` of the fraction. -/
theorem jsRound_eq_floor (n : ℤ) (d : ℕ) (hd : 0 < d) :
    jsRound n d = ⌊(n : ℚ) / (d : ℚ) + 1 / 2⌋ := by
  have hd0 : (d : ℚ) ≠ 0 := by positivity
  have key : (n : ℚ) / (d : ℚ) + 1 / 2
      = ((2 * n + (d : ℤ) : ℤ) : ℚ) / ((2 * d : ℕ) : ℚ) := by
    push_cast
    field_simp
    ring
  rw [jsRound, key, Rat.floor_intCast_div_natCast]
  norm_cast

/-- `round` keeps the value of any input with fewer than 3 canonical
decimal digits. -/
theorem roundDec_toRat_of_lt (d : Dec) (h : (normalize d).e < 3) :
    (roundDec d).toRat = d.toRat := by
  rw [← normalize_toRat d]
  simp only [roundDec]
  by_cases h0 : (normalize d).e = 0
  · rw [if_pos h0]
  · rw [if_neg h0, if_pos h]

/-- On inputs with 3 or more canonical decimal digits, `round` computes
`Math.round(value * 100) / 100` with ties toward positive infinity. -/
theorem roundDec_toRat_of_ge (d : Dec) (h : 3 ≤ (normalize d).e) :
    (roundDec d).toRat = (⌊d.toRat * 100 + 1 / 2⌋ : ℚ) / 100 := by
  have h0 : ¬ (normalize d).e = 0 := by omega
  have h3 : ¬ (normalize d).e < 3 := by omega
  simp only [roundDec, if_neg h0, if_neg h3]
  rw [normalize_toRat ⟨jsRound ((normalize d).m * 100) (10 ^ (normalize d).e), 2⟩]
  rw [Dec.toRat]
  have harg : (((normalize d).m * 100 : ℤ) : ℚ) / ((10 ^ (normalize d).e : ℕ) : ℚ)
      = d.toRat * 100 := by
    rw [← normalize_toRat d, Dec.toRat]
    push_cast
    ring
  rw [jsRound_eq_floor _ _ (pow_pos (by norm_num) _), harg]
  norm_num

/-- C1 counterexample: the claim says classify(0.125) is WAXING_CRESCENT,
but the first bucket `phase >= 0 && phase <= 0.125` is inclusive at 0.125
and is checked first, so the classifier returns the new-moon pair. -/
theorem C1_boundary_counterexample :
    classifyMoonPhase 0.125 = ("🌑", "new")
    ∧ (("🌑", "new") : String × String) ≠ ("🌒", "waxing crescent") := by
  refine ⟨by norm_num [classifyMoonPhase], by decide⟩

/-- C1 amended: an illumination fraction of exactly 0.125 is classified as
NEW, paired with the new-moon glyph — the boundary belongs to the lower
bucket, whose upper bound is inclusive and which has priority in the
if-chain. -/
theorem C1_boundary_amended : classifyMoonPhase 0.125 = ("🌑", "new") := by
  norm_num [classifyMoonPhase]

/-- C2 counterexample: on the spec's own round-trip example,
tidePredictions performs no rounding: the raw magnitude string passes
through, so the first record has rawValue the string "19.640" and value
`19.640ft`, not `19.64` / `19.64ft`. -/
theorem C2_no_rounding_counterexample :
    tidePredictions "8410140" none (some ⟨some
        [⟨"2020-08-05 00:26", "19.640", "H"⟩,
         ⟨"2020-08-05 06:53", "-0.412", "L"⟩]⟩)
      = .ok
        [⟨"2020-08-05 00:26", .str "19.640", "19.640ft", some "H"⟩,
         ⟨"2020-08-05 06:53", .str "-0.412", "-0.412ft", some "L"⟩]
    ∧ ("19.640ft" : String) ≠ "19.64ft"
    ∧ JsVal.str "19.640" ≠ JsVal.num ⟨1964, 2⟩ :=
  ⟨rfl, by decide, by decide⟩

/-- C2 amended: tidePredictions maps each raw record, preserving upstream
order, to time = t, rawValue = the raw magnitude string unchanged (no
rounding), value = that raw string immediately followed by the height
symbol with no separator, and type passed through unchanged. -/
theorem C2_tide_shaping_amended (stationId : String)
    (units : Option MeasurementSystem) (preds : List RawReturnData) :
    tidePredictions stationId units (some ⟨some preds⟩)
      = .ok (preds.map fun p =>
          ⟨p.t, .str p.v,
           p.v ++ (unitSymbols (units.getD .imperial)).height,
           some p.type⟩) := rfl

/-- C3: `round` is the identity (in value) on every mathematically
integral input and on every input whose canonical decimal representation
has fewer than 3 fractional digits; `round(19.6401) = 19.64`,
`round(-0.4123) = -0.41`, and the string `"7.1505"` is accepted
identically to the numeric value it denotes, rounding to `7.15`. -/
theorem C3_round_identity_and_examples :
    (∀ d : Dec, (∃ k : ℤ, d.toRat = (k : ℚ)) → (roundDec d).toRat = d.toRat)
    ∧ (∀ d : Dec, (normalize d).e < 3 → (roundDec d).toRat = d.toRat)
    ∧ roundDec ⟨196401, 4⟩ = ⟨1964, 2⟩
    ∧ roundDec ⟨-4123, 4⟩ = ⟨-41, 2⟩
    ∧ round (.inl "7.1505") = some (roundDec ⟨71505, 4⟩)
    ∧ roundDec ⟨71505, 4⟩ = ⟨715, 2⟩ := by
  refine ⟨?_, ?_, by decide, by decide, by decide, by decide⟩
  · rintro d ⟨k, hk⟩
    exact roundDec_toRat_of_lt d
      (by rw [normalize_e_eq_zero_of_integral d k hk]; omega)
  · exact roundDec_toRat_of_lt

/-- C3 witness: the identity branches applied at 7.0 (integral) and 1.5
(one fractional digit). -/
theorem C3_round_identity_witness :
    (roundDec ⟨70, 1⟩).toRat = (Dec.mk 70 1).toRat
    ∧ (roundDec ⟨15, 1⟩).toRat = (Dec.mk 15 1).toRat :=
  ⟨C3_round_identity_and_examples.1 ⟨70, 1⟩ ⟨7, by norm_num [Dec.toRat]⟩,
   C3_round_identity_and_examples.2.1 ⟨15, 1⟩ (by decide)⟩

/-- C4 counterexample: an empty upstream collection does not raise a
descriptive error — tidePredictions returns the empty list as a success,
and getCurrentProductValue fails with a bare TypeError (reading `.v` of
`data[0]` = undefined), which names neither station nor product. -/
theorem C4_empty_collection_counterexample :
    tidePredictions "8410140" none (some ⟨some []⟩) = .ok []
    ∧ getCurrentProductValue "water_level" "8410140" .height none
        (some ⟨some []⟩) = .error .typeError :=
  ⟨rfl, rfl⟩

/-- C4 amended: a payload missing its expected collection raises a
descriptive error naming the station id (and the product, for the
single-value helper); but an empty collection is not caught: tide
predictions then succeed with an empty list, and the single-value helper
raises a bare TypeError. -/
theorem C4_error_handling_amended :
    (∀ (sid : String) (units : Option MeasurementSystem),
      tidePredictions sid units (some ⟨none⟩)
        = .error (.error ("Could not get tide predictions for station "
            ++ sid ++ ". Is the station ID correct?")))
    ∧ (∀ (p sid : String) (meas : Symbols) (units : Option MeasurementSystem),
      getCurrentProductValue p sid meas units (some ⟨none⟩)
        = .error (.error ("Could not get " ++ p ++ " for station " ++ sid ++ ".")))
    ∧ (∀ (sid : String) (units : Option MeasurementSystem),
      tidePredictions sid units (some ⟨some []⟩) = .ok [])
    ∧ (∀ (p sid : String) (meas : Symbols) (units : Option MeasurementSystem),
      getCurrentProductValue p sid meas units (some ⟨some []⟩)
        = .error .typeError) :=
  ⟨fun _ _ => rfl, fun _ _ _ _ => rfl, fun _ _ => rfl, fun _ _ _ _ => rfl⟩

/-- C5 counterexample: out-of-range fractions do not raise — the
classifier falls through every bucket and returns the empty phase/glyph
pair, the very outcome the claim excludes. -/
theorem C5_out_of_range_counterexample :
    classifyMoonPhase (-0.1) = ("", "") ∧ classifyMoonPhase 1.1 = ("", "") := by
  constructor <;> norm_num [classifyMoonPhase]

/-- C5 amended: for every illumination fraction outside [0, 1] the
classifier silently returns the empty phase/glyph fallback pair
(no error is raised). -/
theorem C5_out_of_range_amended (phase : ℚ) (h : phase < 0 ∨ 1 < phase) :
    classifyMoonPhase phase = ("", "") := by
  have hc : ¬ (0 ≤ phase ∧ phase ≤ 1) := by
    rintro ⟨a, b⟩
    rcases h with h | h <;> linarith
  unfold classifyMoonPhase
  split_ifs with h1 h2 h3 h4 h5 h6 h7 h8
  · exact absurd ⟨h1.1, h1.2.trans (by norm_num)⟩ hc
  · exact absurd ⟨(by norm_num : (0 : ℚ) ≤ 0.125).trans h2.1,
      h2.2.le.trans (by norm_num)⟩ hc
  · exact absurd ⟨(by norm_num : (0 : ℚ) ≤ 0.25).trans h3.1,
      h3.2.le.trans (by norm_num)⟩ hc
  · exact absurd ⟨(by norm_num : (0 : ℚ) ≤ 0.375).trans h4.1,
      h4.2.le.trans (by norm_num)⟩ hc
  · exact absurd ⟨(by norm_num : (0 : ℚ) ≤ 0.5).trans h5.1,
      h5.2.le.trans (by norm_num)⟩ hc
  · exact absurd ⟨(by norm_num : (0 : ℚ) ≤ 0.625).trans h6.1,
      h6.2.le.trans (by norm_num)⟩ hc
  · exact absurd ⟨(by norm_num : (0 : ℚ) ≤ 0.75).trans h7.1,
      h7.2.le.trans (by norm_num)⟩ hc
  · exact absurd ⟨(by norm_num : (0 : ℚ) ≤ 0.875).trans h8.1,
      h8.2.trans (by norm_num)⟩ hc
  · rfl

/-- C5 witness: the amended fallback at the claim's own inputs. -/
theorem C5_out_of_range_witness :
    classifyMoonPhase (-0.1) = ("", "") ∧ classifyMoonPhase 1.1 = ("", "") :=
  ⟨C5_out_of_range_amended (-0.1) (Or.inl (by norm_num)),
   C5_out_of_range_amended 1.1 (Or.inr (by norm_num))⟩

/-- C6 counterexample: ties are rounded by JS `Math.round` toward positive
infinity, not away from zero: `round(-0.125)` gives `-0.12`, while
round-half-away-from-zero would give `-0.13`. -/
theorem C6_half_rounding_counterexample :
    roundDec ⟨-125, 3⟩ = ⟨-12, 2⟩
    ∧ (Dec.mk (-12) 2).toRat ≠ (-13 : ℚ) / 100 := by
  refine ⟨by decide, by norm_num [Dec.toRat]⟩

/-- C6 amended: inputs with 3 or more canonical decimal digits are rounded
to 2 places as multiply-by-100, round to the nearest integer with ties
toward positive infinity (JS `Math.round`), divide by 100; negative
numbers use that same rule (not truncation), so `-0.125` rounds to
`-0.12`. -/
theorem C6_round_mechanism_amended :
    (∀ d : Dec, 3 ≤ (normalize d).e →
      (roundDec d).toRat = (⌊d.toRat * 100 + 1 / 2⌋ : ℚ) / 100)
    ∧ roundDec ⟨-125, 3⟩ = ⟨-12, 2⟩ :=
  ⟨roundDec_toRat_of_ge, by decide⟩

/-- C6 witness: the mechanism applied at the tie input -0.125. -/
theorem C6_round_mechanism_witness :
    (roundDec ⟨-125, 3⟩).toRat
      = (⌊(Dec.mk (-125) 3).toRat * 100 + 1 / 2⌋ : ℚ) / 100 :=
  C6_round_mechanism_amended.1 ⟨-125, 3⟩ (by decide)

/-- C7 counterexample: the single-value helper template-stringifies the
rounded magnitude, so rawValue is the STRING "19.64", not a number. -/
theorem C7_raw_value_counterexample :
    getCurrentProductValue "water_level" "8410140" .height none
        (some ⟨some [⟨"2020-08-05 00:26", "19.6401", ""⟩]⟩)
      = .ok ⟨"2020-08-05 00:26", .str "19.64", "19.64 ft", none⟩
    ∧ JsVal.str "19.64" ≠ JsVal.num ⟨1964, 2⟩ :=
  ⟨rfl, by decide⟩

/-- C7 amended: every single-value current-conditions operation shapes its
first record to a display value equal to the rounded magnitude, a single
space, and the kind's unit symbol — so the display value textually
contains the rounded value — but rawValue is the string rendering of the
rounded magnitude (template-stringified), not a number. -/
theorem C7_single_value_shaping_amended :
    (∀ (product sid : String) (meas : Symbols)
      (units : Option MeasurementSystem) (r : RawReturnData)
      (rest : List RawReturnData),
      getCurrentProductValue product sid meas units (some ⟨some (r :: rest)⟩)
        = .ok ⟨r.t, .str (numToString (round (.inl r.v))),
            numToString (round (.inl r.v)) ++ " "
              ++ (unitSymbols (units.getD .imperial)).get meas, none⟩)
    ∧ (∀ sid units res, currentWaterLevel sid units res
        = getCurrentProductValue "water_level" sid .height units res)
    ∧ (∀ sid units res, currentAirTemp sid units res
        = getCurrentProductValue "air_temperature" sid .degree units res)
    ∧ (∀ sid units res, currentWaterTemp sid units res
        = getCurrentProductValue "water_temperature" sid .degree units res)
    ∧ (∀ sid units res, currentAirPressure sid units res
        = getCurrentProductValue "air_pressure" sid .pressure units res) :=
  ⟨fun _ _ _ _ _ _ => rfl, fun _ _ _ => rfl, fun _ _ _ => rfl,
   fun _ _ _ => rfl, fun _ _ _ => rfl⟩

/-- C8 counterexample: wind speed and gust are not rounded: a raw speed of
10.505 is rendered "10.505 kts", while rounding would give "10.51 kts". -/
theorem C8_wind_rounding_counterexample :
    currentWind none ⟨[⟨"2020-08-05 00:26", ⟨10505, 3⟩, ⟨21, 1⟩, "NE"⟩]⟩
      = .ok ⟨"2020-08-05 00:26", ⟨10505, 3⟩, "10.505 kts",
          ⟨21, 1⟩, "2.1 kts", "NE"⟩
    ∧ decToString (roundDec ⟨10505, 3⟩) = "10.51"
    ∧ ("10.505 kts" : String) ≠ "10.51 kts" :=
  ⟨rfl, by decide, by decide⟩

/-- C8 amended: currentWind passes speed and gust through UNrounded, each
template-stringified and suffixed with a space and the measurement
system's speed symbol, and the compass direction string unchanged. -/
theorem C8_wind_shaping_amended (units : Option MeasurementSystem)
    (w : RawWindData) (rest : List RawWindData) :
    currentWind units ⟨w :: rest⟩
      = .ok ⟨w.t, w.s,
          decToString w.s ++ " " ++ (unitSymbols (units.getD .imperial)).speed,
          w.g,
          decToString w.g ++ " " ++ (unitSymbols (units.getD .imperial)).speed,
          w.dr⟩ := rfl

/-- C9: the classifier maps the tested in-range fractions to the buckets
of the spec table, each with that bucket's fixed glyph: 0.0 is NEW, 0.4999
is WAXING_GIBBOUS, 0.5 is FULL, 1.0 is WANING_CRESCENT. -/
theorem C9_moon_bucket_table :
    classifyMoonPhase 0 = ("🌑", "new")
    ∧ classifyMoonPhase 0.4999 = ("🌔", "waxing gibbous")
    ∧ classifyMoonPhase 0.5 = ("🌕", "full")
    ∧ classifyMoonPhase 1 = ("🌘", "waning crescent") := by
  refine ⟨?_, ?_, ?_, ?_⟩ <;> norm_num [classifyMoonPhase]

/-- C10: every measurement-bearing operation defaults the measurement
system to IMPERIAL: an omitted `units` argument produces exactly the
result of passing imperial, hence imperial display symbols. -/
theorem C10_default_units_imperial :
    (∀ (sid : String) (res : Option TideResponseData),
      tidePredictions sid none res = tidePredictions sid (some .imperial) res)
    ∧ (∀ (p sid : String) (meas : Symbols) (res : Option ProductResponseData),
      getCurrentProductValue p sid meas none res
        = getCurrentProductValue p sid meas (some .imperial) res)
    ∧ (∀ (sid : String) (res : Option ProductResponseData),
      currentWaterLevel sid none res = currentWaterLevel sid (some .imperial) res)
    ∧ (∀ (sid : String) (res : Option ProductResponseData),
      currentAirTemp sid none res = currentAirTemp sid (some .imperial) res)
    ∧ (∀ (sid : String) (res : Option ProductResponseData),
      currentWaterTemp sid none res = currentWaterTemp sid (some .imperial) res)
    ∧ (∀ (sid : String) (res : Option ProductResponseData),
      currentAirPressure sid none res = currentAirPressure sid (some .imperial) res)
    ∧ (∀ res : WindResponseData,
      currentWind none res = currentWind (some .imperial) res) :=
  ⟨fun _ _ => rfl, fun _ _ _ _ => rfl, fun _ _ => rfl, fun _ _ => rfl,
   fun _ _ => rfl, fun _ _ => rfl, fun _ => rfl⟩

end Tides
